import Mathlib

/-!
Shallow embedding of the GitHub-to-Webex webhook pipeline
(source: src/unnamed/part_000, an Express app).

The embedding covers the POST /github handler (lines 82-203):
signature validation against the x-hub-signature-256 header (lines 95-112),
the event-formatting switch (lines 127-164), and the relay call with its
try/catch (lines 173-202).  HMAC-SHA256 is an external primitive of the
Node crypto module; the handler only ever uses its hex digest as an opaque
string, so the embedding is parametric in a function
hmacHex : String -> String -> String (key, body to hex digest).
Node crypto.timingSafeEqual is modelled from its documented semantics:
a constant-time XOR/OR fold over two byte buffers of equal length, throwing
a RangeError when the lengths differ.  Buffers built by Buffer.from over the
ASCII strings involved here are one byte per character; bytes are modelled
as the character code points.
-/

deriving instance DecidableEq for Except

namespace GithubWebexBot

/-- One element of the commits array of a push payload.  Only the length of
the array is ever read by the handler; the contents are carried opaquely. -/
structure Commit where
  id : String
deriving Repr, DecidableEq

/-- JSON object payload.pusher of a push event. -/
structure Pusher where
  name : Option String
deriving Repr, DecidableEq

/-- JSON object payload.pull_request of a pull_request event. -/
structure PullRequestObj where
  title : Option String
  html_url : Option String
deriving Repr, DecidableEq

/-- JSON object payload.issue of an issues event. -/
structure IssueObj where
  number : Option Nat
  title : Option String
  html_url : Option String
deriving Repr, DecidableEq

/-- JSON object payload.sender. -/
structure Sender where
  login : Option String
deriving Repr, DecidableEq

/-- The parsed JSON body (req.body), restricted to the fields the handler
reads.  A field whose value is `none` models an absent (undefined) JSON
field. -/
structure Payload where
  ref : Option String := none
  commits : Option (List Commit) := none
  pusher : Option Pusher := none
  compare : Option String := none
  action : Option String := none
  number : Option Nat := none
  pull_request : Option PullRequestObj := none
  issue : Option IssueObj := none
  sender : Option Sender := none
deriving Repr, DecidableEq

/-- Interpolation of a possibly-undefined JS string value inside a template
literal: undefined prints as the string "undefined". -/
def jsTemplate : Option String → String
  | some s => s
  | none => "undefined"

/-- Interpolation of a possibly-undefined JS number inside a template
literal: undefined prints as "undefined". -/
def jsTemplateNum : Option Nat → String
  | some n => toString n
  | none => "undefined"

/-- JS logical-or fallback for a possibly-undefined string, as in
payload.pusher?.name || (a default): undefined and the empty string are
falsy and select the default. -/
def jsOrString : Option String → String → String
  | some s, d => if s = "" then d else s
  | none, d => d

/-- JS logical-or fallback for a possibly-undefined number, as in
payload.commits?.length || 0: undefined and 0 are falsy and select the
default. -/
def jsOrNum : Option Nat → Nat → Nat
  | some n, d => if n = 0 then d else n
  | none, d => d

/-- Node Buffer.from over a string: the UTF-8 byte sequence.  All strings
compared by the handler (hex digests, the sha256= header) are ASCII, one
byte per character; bytes are modelled as character code points. -/
def bufferFrom (s : String) : List Nat :=
  s.data.map Char.toNat

/-- Model of the comparison loop inside Node crypto.timingSafeEqual
(OpenSSL CRYPTO_memcmp): walk both buffers to the end, OR-accumulating the
XOR of each byte pair, with no early exit.  The first component is the
accumulated difference (0 iff the buffers agree), the second counts the
byte comparisons performed (the cost of the loop). -/
def timingSafeCompare : List Nat → List Nat → Nat × Nat
  | x :: xs, y :: ys =>
    let r := timingSafeCompare xs ys
    ((x ^^^ y) ||| r.1, r.2 + 1)
  | _, _ => (0, 0)

/-- Accumulated XOR/OR difference of two buffers. -/
def xorFold (a b : List Nat) : Nat :=
  (timingSafeCompare a b).1

/-- Number of byte comparisons the loop performs. -/
def comparisonSteps (a b : List Nat) : Nat :=
  (timingSafeCompare a b).2

/-- Node crypto.timingSafeEqual: throws a RangeError (modelled as
Except.error) when the buffer lengths differ, otherwise reports whether the
accumulated difference is zero. -/
def timingSafeEqual (a b : List Nat) : Except Unit Bool :=
  if a.length = b.length then Except.ok (xorFold a b == 0) else Except.error ()

/-- Outcome of the signature-validation block, lines 95-112: the header is
missing (early 401 "Signature missing"), the comparison throws (length
mismatch inside crypto.timingSafeEqual), the comparison reports a mismatch
(early 401 "Invalid signature"), or the signature is valid. -/
inductive SigCheck where
  | missing
  | fault
  | invalid
  | valid
deriving Repr, DecidableEq

/-- Lines 95-112: read the x-hub-signature-256 header, compute
sha256= plus the hex HMAC digest of the raw body under the secret, and
compare the two with crypto.timingSafeEqual. -/
def signatureCheck (hmacHex : String → String → String) (secret rawBody : String)
    (sigHeader : Option String) : SigCheck :=
  match sigHeader with
  | none => SigCheck.missing
  | some sig =>
    let expectedSig := "sha256=" ++ hmacHex secret rawBody
    match timingSafeEqual (bufferFrom sig) (bufferFrom expectedSig) with
    | Except.error _ => SigCheck.fault
    | Except.ok true => SigCheck.valid
    | Except.ok false => SigCheck.invalid

/-- The switch over the x-github-event header, lines 127-164.
Except.error models an uncaught TypeError (reading a property of
undefined); Except.ok none models the default branch, which answers
200 "Event received" without building a message; Except.ok (some m) is the
message handed to the relay. -/
def formatMessage (event : String) (p : Payload) : Except Unit (Option String) :=
  if event = "push" then
    Except.ok (some ("**Push Event**: "
      ++ toString (jsOrNum (p.commits.map List.length) 0)
      ++ " commits pushed to " ++ jsTemplate p.ref
      ++ " by " ++ jsOrString (p.pusher.bind Pusher.name) "unknown"
      ++ ". Compare: " ++ jsTemplate p.compare))
  else if event = "pull_request" then
    match p.pull_request with
    | none => Except.error ()
    | some pr =>
      match p.sender with
      | none => Except.error ()
      | some s =>
        Except.ok (some ("**Pull Request " ++ jsTemplate p.action ++ "**: #"
          ++ jsTemplateNum p.number
          ++ " \"" ++ jsTemplate pr.title ++ "\" by " ++ jsTemplate s.login
          ++ ". URL: " ++ jsTemplate pr.html_url))
  else if event = "issues" then
    match p.issue with
    | none => Except.error ()
    | some i =>
      match p.sender with
      | none => Except.error ()
      | some s =>
        Except.ok (some ("**Issue " ++ jsTemplate p.action ++ "**: #"
          ++ jsTemplateNum i.number
          ++ " \"" ++ jsTemplate i.title ++ "\" by " ++ jsTemplate s.login
          ++ ". URL: " ++ jsTemplate i.html_url))
  else
    Except.ok none

/-- HTTP outcome of one POST /github request: a response with status code
and body text, or an uncaught fault (an exception escaping the async
handler). -/
inductive HttpResult where
  | response (status : Nat) (body : String)
  | fault
deriving Repr, DecidableEq

/-- Lines 173-202: hand the message to webex.messages.create exactly once,
inside the try/catch of lines 173-193.  The relay either resolves
(Except.ok) or rejects (Except.error); a rejection is caught and only
logged, so the 200 "Event processed" response of line 202 is sent either
way.  The second component counts the relay invocations made. -/
def relayStep (relay : String → Except Unit Unit) (msg : String) :
    HttpResult × Nat :=
  match relay msg with
  | Except.ok _ => (HttpResult.response 200 "Event processed", 1)
  | Except.error _ => (HttpResult.response 200 "Event processed", 1)

/-- The POST /github handler, lines 82-203, for one request.  The relay
argument is webex.messages.create.  The result pairs the HTTP outcome with
the number of relay invocations made during the request. -/
def githubHandler (hmacHex : String → String → String) (secret rawBody : String)
    (sigHeader : Option String) (event : String) (p : Payload)
    (relay : String → Except Unit Unit) : HttpResult × Nat :=
  match signatureCheck hmacHex secret rawBody sigHeader with
  | SigCheck.missing => (HttpResult.response 401 "Signature missing", 0)
  | SigCheck.fault => (HttpResult.fault, 0)
  | SigCheck.invalid => (HttpResult.response 401 "Invalid signature", 0)
  | SigCheck.valid =>
    match formatMessage event p with
    | Except.error _ => (HttpResult.fault, 0)
    | Except.ok none => (HttpResult.response 200 "Event received", 0)
    | Except.ok (some msg) => relayStep relay msg

/-! Helper lemmas about the comparison loop and buffers. -/

theorem nat_lor_eq_zero_iff {a b : Nat} : a ||| b = 0 ↔ a = 0 ∧ b = 0 := by
  constructor
  · intro h
    have hb : ∀ i, a.testBit i = false ∧ b.testBit i = false := by
      intro i
      have h0 : (a ||| b).testBit i = false := by
        rw [h]; exact Nat.zero_testBit i
      rw [Nat.testBit_lor] at h0
      exact Bool.or_eq_false_iff.mp h0
    exact ⟨Nat.zero_of_testBit_eq_false fun i => (hb i).1,
      Nat.zero_of_testBit_eq_false fun i => (hb i).2⟩
  · rintro ⟨rfl, rfl⟩
    rfl

theorem xorFold_nil_left (b : List Nat) : xorFold [] b = 0 := by
  cases b <;> rfl

theorem xorFold_cons (x y : Nat) (xs ys : List Nat) :
    xorFold (x :: xs) (y :: ys) = (x ^^^ y) ||| xorFold xs ys := rfl

theorem xorFold_self (a : List Nat) : xorFold a a = 0 := by
  induction a with
  | nil => rfl
  | cons x xs ih =>
    rw [xorFold_cons, Nat.xor_self, ih]
    decide

theorem xorFold_eq_zero_iff (a b : List Nat) (h : a.length = b.length) :
    xorFold a b = 0 ↔ a = b := by
  induction a generalizing b with
  | nil =>
    cases b with
    | nil => simp [xorFold_nil_left]
    | cons y ys => simp at h
  | cons x xs ih =>
    cases b with
    | nil => simp at h
    | cons y ys =>
      rw [xorFold_cons, nat_lor_eq_zero_iff, Nat.xor_eq_zero,
        ih ys (by simpa using h)]
      simp

theorem comparisonSteps_cons (x y : Nat) (xs ys : List Nat) :
    comparisonSteps (x :: xs) (y :: ys) = comparisonSteps xs ys + 1 := rfl

theorem comparisonSteps_eq_min (a b : List Nat) :
    comparisonSteps a b = min a.length b.length := by
  induction a generalizing b with
  | nil => cases b <;> rfl
  | cons x xs ih =>
    cases b with
    | nil => rfl
    | cons y ys =>
      rw [comparisonSteps_cons, ih ys]
      simp [Nat.succ_min_succ]

theorem char_toNat_injective {c d : Char} (h : c.toNat = d.toNat) : c = d := by
  have h2 := congrArg Char.ofNat h
  rwa [Char.ofNat_toNat, Char.ofNat_toNat] at h2

theorem bufferFrom_injective {s t : String} (h : bufferFrom s = bufferFrom t) :
    s = t := by
  unfold bufferFrom at h
  have hd : s.data = t.data := by
    generalize s.data = xs at h
    generalize t.data = ys at h
    induction xs generalizing ys with
    | nil =>
      cases ys with
      | nil => rfl
      | cons y ys => simp at h
    | cons x xs ih =>
      cases ys with
      | nil => simp at h
      | cons y ys =>
        simp at h
        rw [char_toNat_injective h.1, ih ys h.2]
  cases s; cases t; exact congrArg String.mk hd

theorem bufferFrom_length (s : String) : (bufferFrom s).length = s.length :=
  List.length_map s.data Char.toNat

/-! Helper lemmas about signature checking and the relay try/catch. -/

theorem signatureCheck_expected (hmacHex : String → String → String)
    (secret rawBody : String) :
    signatureCheck hmacHex secret rawBody
      (some ("sha256=" ++ hmacHex secret rawBody)) = SigCheck.valid := by
  simp only [signatureCheck, timingSafeEqual]
  simp [xorFold_self]

theorem signatureCheck_mismatch (hmacHex : String → String → String)
    (secret rawBody sig : String)
    (hne : sig ≠ "sha256=" ++ hmacHex secret rawBody)
    (hlen : sig.length = ("sha256=" ++ hmacHex secret rawBody).length) :
    signatureCheck hmacHex secret rawBody (some sig) = SigCheck.invalid := by
  have hblen : (bufferFrom sig).length
      = (bufferFrom ("sha256=" ++ hmacHex secret rawBody)).length := by
    rw [bufferFrom_length, bufferFrom_length, hlen]
  have hfold : xorFold (bufferFrom sig)
      (bufferFrom ("sha256=" ++ hmacHex secret rawBody)) ≠ 0 := by
    intro h0
    exact hne (bufferFrom_injective ((xorFold_eq_zero_iff _ _ hblen).mp h0))
  have hbe : (xorFold (bufferFrom sig)
      (bufferFrom ("sha256=" ++ hmacHex secret rawBody)) == 0) = false := by
    simp [hfold]
  simp only [signatureCheck, timingSafeEqual]
  rw [if_pos hblen, hbe]

theorem signatureCheck_length_mismatch (hmacHex : String → String → String)
    (secret rawBody sig : String)
    (hlen : sig.length ≠ ("sha256=" ++ hmacHex secret rawBody).length) :
    signatureCheck hmacHex secret rawBody (some sig) = SigCheck.fault := by
  have hblen : (bufferFrom sig).length
      ≠ (bufferFrom ("sha256=" ++ hmacHex secret rawBody)).length := by
    rw [bufferFrom_length, bufferFrom_length]; exact hlen
  simp only [signatureCheck, timingSafeEqual]
  rw [if_neg hblen]

theorem relayStep_eq (relay : String → Except Unit Unit) (msg : String) :
    relayStep relay msg = (HttpResult.response 200 "Event processed", 1) := by
  unfold relayStep
  cases relay msg <;> rfl

/-! Claim theorems. -/

/-- Claim C1: for every body, secret and hex-digest function, checking the
body against the header string built as sha256= plus the hex HMAC digest of
the body under the secret succeeds: the signature-validation block of
lines 95-112 accepts the request as authentic. -/
theorem c1_expected_signature_accepted (hmacHex : String → String → String)
    (secret rawBody : String) :
    signatureCheck hmacHex secret rawBody
      (some ("sha256=" ++ hmacHex secret rawBody)) = SigCheck.valid :=
  signatureCheck_expected hmacHex secret rawBody

/-- Claim C2 (code bug): a present signature header whose length differs
from the expected sha256= header does NOT make verification return false;
crypto.timingSafeEqual throws a RangeError on buffers of unequal length, so
the handler faults with an uncaught exception instead of answering 401. -/
theorem c2_wrong_length_signature_faults (hmacHex : String → String → String)
    (secret rawBody sig event : String) (p : Payload)
    (relay : String → Except Unit Unit)
    (hlen : sig.length ≠ ("sha256=" ++ hmacHex secret rawBody).length) :
    githubHandler hmacHex secret rawBody (some sig) event p relay
      = (HttpResult.fault, 0) := by
  simp [githubHandler, signatureCheck_length_mismatch hmacHex secret rawBody sig hlen]

/-- Witness for C2: with digest "aa", secret "k", body "b", the one-byte
signature header "x" has length 1 while the expected header "sha256=aa" has
length 9, and the handler faults. -/
theorem c2_wrong_length_signature_faults_witness :
    githubHandler (fun _ _ => "aa") "k" "b" (some "x") "push" {}
      (fun _ => Except.ok ()) = (HttpResult.fault, 0) :=
  c2_wrong_length_signature_faults (fun _ _ => "aa") "k" "b" "x" "push" {}
    (fun _ => Except.ok ()) (by decide)

/-- Claim C3: the comparison loop of crypto.timingSafeEqual is
constant-time in the modelled cost: for any two candidate signature strings
of the same length as the expected value, the number of byte comparisons
performed against the expected value is identical, whatever their content
and wherever the first differing byte sits. -/
theorem c3_comparison_constant_time (s1 s2 t : String)
    (h1 : s1.length = t.length) (h2 : s2.length = t.length) :
    comparisonSteps (bufferFrom s1) (bufferFrom t)
      = comparisonSteps (bufferFrom s2) (bufferFrom t) := by
  rw [comparisonSteps_eq_min, comparisonSteps_eq_min,
    bufferFrom_length, bufferFrom_length, bufferFrom_length, h1, h2]

/-- Witness for C3: comparing "abc" and "abd" (first difference in the last
byte) against "aaa" (first difference in the second byte) costs the same
number of byte comparisons. -/
theorem c3_comparison_constant_time_witness :
    comparisonSteps (bufferFrom "abc") (bufferFrom "aaa")
      = comparisonSteps (bufferFrom "abd") (bufferFrom "aaa") :=
  c3_comparison_constant_time "abc" "abd" "aaa" (by decide) (by decide)

/-- Counterexample to C4 as stated: on the payload with commits [c1, c2],
ref refs/heads/main, pusher alice and compare u, the push branch of
line 129 does not produce the plain string claimed by the spec, because
the template brackets Push Event in markdown-bold asterisks. -/
theorem c4_counterexample :
    formatMessage "push"
        { ref := some "refs/heads/main",
          commits := some [{ id := "c1" }, { id := "c2" }],
          pusher := some { name := some "alice" }, compare := some "u" }
      ≠ Except.ok
          (some "Push Event: 2 commits pushed to refs/heads/main by alice. Compare: u") := by
  decide

/-- Claim C4 (amended): the push branch renders the template with
markdown-bold asterisks around Push Event, so the payload with commits
present, a nonempty pusher name, ref and compare produces
"**Push Event**: {count} commits pushed to {ref} by {name}. Compare: {compare}"
with count the length of the commits array. -/
theorem c4_push_template (commits : List Commit) (r pname comp : String)
    (hname : pname ≠ "") :
    formatMessage "push"
        { ref := some r, commits := some commits,
          pusher := some { name := some pname }, compare := some comp }
      = Except.ok (some ("**Push Event**: " ++ toString commits.length
          ++ " commits pushed to " ++ r ++ " by " ++ pname
          ++ ". Compare: " ++ comp)) := by
  by_cases hc : commits.length = 0 <;>
    simp [formatMessage, jsTemplate, jsOrString, jsOrNum, hname, hc]

/-- Witness for C4 (amended): the concrete payload of the claim yields
the bold-bracketed message with commit count 2. -/
theorem c4_push_template_witness :
    formatMessage "push"
        { ref := some "refs/heads/main",
          commits := some [{ id := "c1" }, { id := "c2" }],
          pusher := some { name := some "alice" }, compare := some "u" }
      = Except.ok
          (some ("**Push Event**: " ++ toString ([{ id := "c1" }, { id := "c2" }] : List Commit).length
            ++ " commits pushed to " ++ "refs/heads/main" ++ " by " ++ "alice"
            ++ ". Compare: " ++ "u")) :=
  c4_push_template [{ id := "c1" }, { id := "c2" }] "refs/heads/main" "alice" "u"
    (by decide)

/-- Claim C5: with a valid signature and an event type other than push,
pull_request or issues, the default branch of lines 157-163 answers
200 "Event received" and the relay is never invoked. -/
theorem c5_unsupported_event_acknowledged (hmacHex : String → String → String)
    (secret rawBody event : String) (p : Payload)
    (relay : String → Except Unit Unit)
    (h1 : event ≠ "push") (h2 : event ≠ "pull_request") (h3 : event ≠ "issues") :
    githubHandler hmacHex secret rawBody
        (some ("sha256=" ++ hmacHex secret rawBody)) event p relay
      = (HttpResult.response 200 "Event received", 0) := by
  simp [githubHandler, signatureCheck_expected, formatMessage, h1, h2, h3]

/-- Witness for C5: a deployment event with a valid signature is
acknowledged with 200 "Event received" and zero relay invocations. -/
theorem c5_unsupported_event_acknowledged_witness :
    githubHandler (fun _ _ => "aa") "k" "b" (some "sha256=aa") "deployment" {}
      (fun _ => Except.ok ()) = (HttpResult.response 200 "Event received", 0) :=
  c5_unsupported_event_acknowledged (fun _ _ => "aa") "k" "b" "deployment" {}
    (fun _ => Except.ok ()) (by decide) (by decide) (by decide)

/-- Claim C6: with a valid signature, an issues event whose payload carries
the issue and sender objects invokes the relay exactly once and answers
200 "Event processed", for every relay behaviour, including a relay that
rejects: the catch of lines 185-193 swallows the rejection and line 202
still sends the 200. -/
theorem c6_relay_exactly_once (hmacHex : String → String → String)
    (secret rawBody : String) (p : Payload) (i : IssueObj) (s : Sender)
    (relay : String → Except Unit Unit)
    (hi : p.issue = some i) (hs : p.sender = some s) :
    githubHandler hmacHex secret rawBody
        (some ("sha256=" ++ hmacHex secret rawBody)) "issues" p relay
      = (HttpResult.response 200 "Event processed", 1) := by
  simp [githubHandler, signatureCheck_expected, formatMessage, hi, hs, relayStep_eq]

/-- Witness for C6: an issues event with action opened and a relay that
rejects still yields 200 "Event processed" with exactly one relay
invocation. -/
theorem c6_relay_exactly_once_witness :
    githubHandler (fun _ _ => "aa") "k" "b" (some "sha256=aa") "issues"
        { action := some "opened",
          issue := some { number := some 7, title := some "t", html_url := some "h" },
          sender := some { login := some "bob" } }
        (fun _ => Except.error ())
      = (HttpResult.response 200 "Event processed", 1) :=
  c6_relay_exactly_once (fun _ _ => "aa") "k" "b"
    { action := some "opened",
      issue := some { number := some 7, title := some "t", html_url := some "h" },
      sender := some { login := some "bob" } }
    { number := some 7, title := some "t", html_url := some "h" }
    { login := some "bob" } (fun _ => Except.error ()) rfl rfl

/-- Counterexample to C7 as stated: a present-but-mismatched signature does
not always yield 401 "Invalid signature": when its length differs from the
expected header the comparison throws and the handler faults instead. -/
theorem c7_counterexample :
    githubHandler (fun _ _ => "aa") "k" "b" (some "sha256=aa!") "push" {}
      (fun _ => Except.ok ())
      ≠ (HttpResult.response 401 "Invalid signature", 0) := by
  decide

/-- Claim C7 (amended): an absent x-hub-signature-256 header yields
401 "Signature missing"; a present-but-mismatched signature of the same
length as the expected value yields 401 "Invalid signature"; the two
rejection bodies differ, so the outcomes are distinguishable.  (A
mismatched signature of a different length faults instead, see C2.) -/
theorem c7_rejection_responses (hmacHex : String → String → String)
    (secret rawBody event : String) (p : Payload)
    (relay : String → Except Unit Unit) (sig : String)
    (hne : sig ≠ "sha256=" ++ hmacHex secret rawBody)
    (hlen : sig.length = ("sha256=" ++ hmacHex secret rawBody).length) :
    githubHandler hmacHex secret rawBody none event p relay
        = (HttpResult.response 401 "Signature missing", 0)
    ∧ githubHandler hmacHex secret rawBody (some sig) event p relay
        = (HttpResult.response 401 "Invalid signature", 0)
    ∧ "Signature missing" ≠ "Invalid signature" := by
  refine ⟨rfl, ?_, by decide⟩
  simp [githubHandler, signatureCheck_mismatch hmacHex secret rawBody sig hne hlen]

/-- Witness for C7 (amended): header absent versus the same-length
mismatched header "sha256=ab" against expected "sha256=aa". -/
theorem c7_rejection_responses_witness :
    githubHandler (fun _ _ => "aa") "k" "b" none "push" {} (fun _ => Except.ok ())
        = (HttpResult.response 401 "Signature missing", 0)
    ∧ githubHandler (fun _ _ => "aa") "k" "b" (some "sha256=ab") "push" {}
        (fun _ => Except.ok ())
        = (HttpResult.response 401 "Invalid signature", 0)
    ∧ "Signature missing" ≠ "Invalid signature" :=
  c7_rejection_responses (fun _ _ => "aa") "k" "b" "push" {}
    (fun _ => Except.ok ()) "sha256=ab" (by decide) (by decide)

/-- Claim C8: with a valid signature, a pull_request event whose payload
lacks the pull_request object, or an issues event whose payload lacks the
issue object, makes the formatting step of lines 137-156 read a property
of undefined: the handler raises an uncaught runtime fault instead of
sending an error response or skipping. -/
theorem c8_incomplete_payload_faults (hmacHex : String → String → String)
    (secret rawBody : String) (p q : Payload)
    (relay : String → Except Unit Unit)
    (hp : p.pull_request = none) (hq : q.issue = none) :
    githubHandler hmacHex secret rawBody
        (some ("sha256=" ++ hmacHex secret rawBody)) "pull_request" p relay
      = (HttpResult.fault, 0)
    ∧ githubHandler hmacHex secret rawBody
        (some ("sha256=" ++ hmacHex secret rawBody)) "issues" q relay
      = (HttpResult.fault, 0) := by
  constructor <;> simp [githubHandler, signatureCheck_expected, formatMessage, hp, hq]

/-- Witness for C8: an authenticated pull_request event without a
pull_request object and an authenticated issues event without an issue
object both fault. -/
theorem c8_incomplete_payload_faults_witness :
    githubHandler (fun _ _ => "aa") "k" "b" (some "sha256=aa") "pull_request"
        { action := some "opened", sender := some { login := some "bob" } }
        (fun _ => Except.ok ())
      = (HttpResult.fault, 0)
    ∧ githubHandler (fun _ _ => "aa") "k" "b" (some "sha256=aa") "issues" {}
        (fun _ => Except.ok ())
      = (HttpResult.fault, 0) :=
  c8_incomplete_payload_faults (fun _ _ => "aa") "k" "b"
    { action := some "opened", sender := some { login := some "bob" } } {}
    (fun _ => Except.ok ()) rfl rfl

/-- Claim C9: a push payload whose pusher name is absent (no pusher object,
or a pusher object without a name) renders the pusher slot of the line 129
template as the literal string "unknown", without faulting and without an
empty field. -/
theorem c9_missing_pusher_renders_unknown (p : Payload)
    (h : p.pusher.bind Pusher.name = none) :
    formatMessage "push" p
      = Except.ok (some ("**Push Event**: "
          ++ toString (jsOrNum (p.commits.map List.length) 0)
          ++ " commits pushed to " ++ jsTemplate p.ref
          ++ " by " ++ "unknown" ++ ". Compare: " ++ jsTemplate p.compare)) := by
  simp [formatMessage, jsOrString, h]

/-- Witness for C9: the spec example payload with empty commits, ref
refs/heads/x, compare u and no pusher renders the pusher as "unknown". -/
theorem c9_missing_pusher_renders_unknown_witness :
    formatMessage "push"
        { ref := some "refs/heads/x", commits := some [], compare := some "u" }
      = Except.ok (some ("**Push Event**: "
          ++ toString (jsOrNum ((some ([] : List Commit)).map List.length) 0)
          ++ " commits pushed to " ++ jsTemplate (some "refs/heads/x")
          ++ " by " ++ "unknown" ++ ". Compare: " ++ jsTemplate (some "u"))) :=
  c9_missing_pusher_renders_unknown
    { ref := some "refs/heads/x", commits := some [], compare := some "u" } rfl

/-- Claim C10: the push branch is total: formatting a push event never
faults on any payload shape, and with the commits array absent the count
renders as 0 while an absent or empty pusher name renders as "unknown",
unlike the pull_request and issues branches. -/
theorem c10_push_branch_total (p q : Payload) (hc : p.commits = none)
    (hn : p.pusher.bind Pusher.name = none ∨ p.pusher.bind Pusher.name = some "") :
    (∃ m, formatMessage "push" q = Except.ok (some m))
    ∧ formatMessage "push" p
        = Except.ok (some ("**Push Event**: " ++ "0"
            ++ " commits pushed to " ++ jsTemplate p.ref
            ++ " by " ++ "unknown" ++ ". Compare: " ++ jsTemplate p.compare)) := by
  have h0 : toString (0 : Nat) = "0" := rfl
  constructor
  · exact ⟨"**Push Event**: " ++ toString (jsOrNum (q.commits.map List.length) 0)
      ++ " commits pushed to " ++ jsTemplate q.ref
      ++ " by " ++ jsOrString (q.pusher.bind Pusher.name) "unknown"
      ++ ". Compare: " ++ jsTemplate q.compare, by simp [formatMessage]⟩
  · rcases hn with hn | hn <;> simp [formatMessage, jsOrString, jsOrNum, hc, hn, h0]

/-- Witness for C10: the empty payload (every field absent) formats to the
all-fallback push message, and the totality conjunct holds at a payload
with an empty-string pusher name. -/
theorem c10_push_branch_total_witness :
    (∃ m, formatMessage "push" { pusher := some { name := some "" } }
      = Except.ok (some m))
    ∧ formatMessage "push" ({} : Payload)
        = Except.ok (some ("**Push Event**: " ++ "0"
            ++ " commits pushed to " ++ jsTemplate (none : Option String)
            ++ " by " ++ "unknown" ++ ". Compare: "
            ++ jsTemplate (none : Option String))) :=
  c10_push_branch_total {} { pusher := some { name := some "" } } rfl (Or.inl rfl)

end GithubWebexBot
